import Mathlib

/-!
Verification of `sdk/servicebus/azure-servicebus/azure/servicebus/management/_management_client.py`
(class `ServiceBusManagementClient`), a management-plane client for a Service Bus
namespace handling queues, topics, subscriptions and rules.

Shallow embedding conventions:

* Every public operation is embedded as a pure Lean function. The network is
  factored out: an operation that reads a server response takes the already
  deserialized entry envelope as an explicit argument, and every operation
  returns, next to its result, the list of HTTP requests it issued. Each
  request records whether it was issued inside the `_handle_response_error`
  translation boundary (the `with _handle_response_error():` block), in the
  field `wrapped`.
* Python `timedelta` values are embedded as integers (microsecond counts);
  a Python attribute that may be `None` is an `Option`.
* Python dynamic typing of the name-or-object arguments is embedded by the
  inductive `PyObject`; attribute access `x.name` guarded by
  `except AttributeError` becomes `resolve_name`.
* `kwargs.get("f") or obj.f` is embedded by `py_or`, which takes the
  truthiness test of the field type: Python treats `None`, `False`,
  `0` and `timedelta(0)` as falsy.
* The generated wire models (`_generated/models`), the domain models
  (`_models.py`) and `avoid_timedelta_overflow` (`_model_workaround.py`) are
  not part of the analysed file; they are modelled from the spec where noted.
-/

/-- A Python `timedelta`, embedded as a count of microseconds. -/
abbrev Duration := Int

/-- Modelled from the spec: the overflow threshold of the wire duration
representation (`P10675199DT2H48M5.4775807S`, i.e. the largest
wire-representable duration), in microseconds. -/
def MAX_DURATION_VALUE : Int := 922337203685477580

/-- Modelled from the spec: `avoid_timedelta_overflow` from
`_model_workaround.py`, the clamp that caps overflow-prone duration fields at
the largest wire-representable duration before transmission; `None` is
passed through. -/
def avoid_timedelta_overflow (d : Option Duration) : Option Duration :=
  d.map (fun x => min x MAX_DURATION_VALUE)

/-- Modelled from the spec: the generated wire model
`QueueDescription` (imported as `InternalQueueDescription`): the fields the
client reads or writes. The name is carried optionally, since the spec notes
the nested content may omit or carry a name. -/
structure InternalQueueDescription where
  name : Option String := none
  default_message_time_to_live : Option Duration := none
  lock_duration : Option Duration := none
  dead_lettering_on_message_expiration : Option Bool := none
  duplicate_detection_history_time_window : Option Duration := none
  max_delivery_count : Option Int := none
  auto_delete_on_idle : Option Duration := none
deriving Repr, DecidableEq

/-- Modelled from the spec: the generated wire model `TopicDescription`. -/
structure InternalTopicDescription where
  name : Option String := none
  default_message_time_to_live : Option Duration := none
  duplicate_detection_history_time_window : Option Duration := none
  auto_delete_on_idle : Option Duration := none
deriving Repr, DecidableEq

/-- Modelled from the spec: the generated wire model `SubscriptionDescription`. -/
structure InternalSubscriptionDescription where
  name : Option String := none
  default_message_time_to_live : Option Duration := none
  auto_delete_on_idle : Option Duration := none
deriving Repr, DecidableEq

/-- Modelled from the spec: the generated wire model `RuleDescription`
(a rule has a name and no duration fields). -/
structure InternalRuleDescription where
  name : Option String := none
deriving Repr, DecidableEq

/-- Modelled from the spec: the domain model `QueueDescription` of
`_models.py` (name, TTL, lock duration, dead-lettering flag,
duplicate-detection window, max delivery count, auto-delete-on-idle). -/
structure QueueDescription where
  name : Option String := none
  default_message_time_to_live : Option Duration := none
  lock_duration : Option Duration := none
  dead_lettering_on_message_expiration : Option Bool := none
  duplicate_detection_history_time_window : Option Duration := none
  max_delivery_count : Option Int := none
  auto_delete_on_idle : Option Duration := none
deriving Repr, DecidableEq

/-- Modelled from the spec: `QueueDescription._from_internal_entity`, a
field-wise copy from the wire model into the domain model. -/
def QueueDescription.from_internal (d : InternalQueueDescription) : QueueDescription :=
  { name := d.name
    default_message_time_to_live := d.default_message_time_to_live
    lock_duration := d.lock_duration
    dead_lettering_on_message_expiration := d.dead_lettering_on_message_expiration
    duplicate_detection_history_time_window := d.duplicate_detection_history_time_window
    max_delivery_count := d.max_delivery_count
    auto_delete_on_idle := d.auto_delete_on_idle }

/-- Modelled from the spec: `QueueDescription._to_internal_entity`, a
field-wise copy from the domain model into the wire model. -/
def QueueDescription.to_internal (q : QueueDescription) : InternalQueueDescription :=
  { name := q.name
    default_message_time_to_live := q.default_message_time_to_live
    lock_duration := q.lock_duration
    dead_lettering_on_message_expiration := q.dead_lettering_on_message_expiration
    duplicate_detection_history_time_window := q.duplicate_detection_history_time_window
    max_delivery_count := q.max_delivery_count
    auto_delete_on_idle := q.auto_delete_on_idle }

/-- Modelled from the spec: the domain model `TopicDescription`. -/
structure TopicDescription where
  name : Option String := none
  default_message_time_to_live : Option Duration := none
  duplicate_detection_history_time_window : Option Duration := none
  auto_delete_on_idle : Option Duration := none
deriving Repr, DecidableEq

/-- Modelled from the spec: `TopicDescription._from_internal_entity`. -/
def TopicDescription.from_internal (d : InternalTopicDescription) : TopicDescription :=
  { name := d.name
    default_message_time_to_live := d.default_message_time_to_live
    duplicate_detection_history_time_window := d.duplicate_detection_history_time_window
    auto_delete_on_idle := d.auto_delete_on_idle }

/-- Modelled from the spec: `TopicDescription._to_internal_entity`. -/
def TopicDescription.to_internal (t : TopicDescription) : InternalTopicDescription :=
  { name := t.name
    default_message_time_to_live := t.default_message_time_to_live
    duplicate_detection_history_time_window := t.duplicate_detection_history_time_window
    auto_delete_on_idle := t.auto_delete_on_idle }

/-- Modelled from the spec: the domain model `SubscriptionDescription`. -/
structure SubscriptionDescription where
  name : Option String := none
  default_message_time_to_live : Option Duration := none
  auto_delete_on_idle : Option Duration := none
deriving Repr, DecidableEq

/-- Modelled from the spec: `SubscriptionDescription._from_internal_entity`. -/
def SubscriptionDescription.from_internal (d : InternalSubscriptionDescription) :
    SubscriptionDescription :=
  { name := d.name
    default_message_time_to_live := d.default_message_time_to_live
    auto_delete_on_idle := d.auto_delete_on_idle }

/-- Modelled from the spec: `SubscriptionDescription._to_internal_entity`. -/
def SubscriptionDescription.to_internal (s : SubscriptionDescription) :
    InternalSubscriptionDescription :=
  { name := s.name
    default_message_time_to_live := s.default_message_time_to_live
    auto_delete_on_idle := s.auto_delete_on_idle }

/-- Modelled from the spec: the domain model `RuleDescription`. -/
structure RuleDescription where
  name : Option String := none
deriving Repr, DecidableEq

/-- Modelled from the spec: `RuleDescription._from_internal_entity`. -/
def RuleDescription.from_internal (d : InternalRuleDescription) : RuleDescription :=
  { name := d.name }

/-- Modelled from the spec: `RuleDescription._to_internal_entity`. -/
def RuleDescription.to_internal (r : RuleDescription) : InternalRuleDescription :=
  { name := r.name }

/-- Modelled from the spec: the domain model `QueueRuntimeInfo` (read-only
runtime counters; only the name is relevant to the verified properties). -/
structure QueueRuntimeInfo where
  name : Option String := none
deriving Repr, DecidableEq

/-- Modelled from the spec: `QueueRuntimeInfo._from_internal_entity`. -/
def QueueRuntimeInfo.from_internal (_ : InternalQueueDescription) : QueueRuntimeInfo :=
  { name := none }

/-- Modelled from the spec: the domain model `TopicRuntimeInfo`. -/
structure TopicRuntimeInfo where
  name : Option String := none
deriving Repr, DecidableEq

/-- Modelled from the spec: `TopicRuntimeInfo._from_internal_entity`. -/
def TopicRuntimeInfo.from_internal (_ : InternalTopicDescription) : TopicRuntimeInfo :=
  { name := none }

/-- Modelled from the spec: the domain model `SubscriptionRuntimeInfo`. -/
structure SubscriptionRuntimeInfo where
  name : Option String := none
deriving Repr, DecidableEq

/-- Modelled from the spec: `SubscriptionRuntimeInfo._from_internal_entity`. -/
def SubscriptionRuntimeInfo.from_internal (_ : InternalSubscriptionDescription) :
    SubscriptionRuntimeInfo :=
  { name := none }

/-- Modelled from the spec: `NamespaceProperties`, the namespace-wide
metadata type (opaque to the client). -/
structure NamespaceProperties where
  name : Option String := none
deriving Repr, DecidableEq

/-- Content of a deserialized `QueueDescriptionEntry` envelope. -/
structure QueueEntryContent where
  queue_description : InternalQueueDescription
deriving Repr, DecidableEq

/-- A deserialized entry envelope for a queue: outer title plus optional
content; empty content signals a nonexistent resource. -/
structure QueueDescriptionEntry where
  title : Option String := none
  content : Option QueueEntryContent := none
deriving Repr, DecidableEq

/-- Content of a deserialized `TopicDescriptionEntry` envelope. -/
structure TopicEntryContent where
  topic_description : InternalTopicDescription
deriving Repr, DecidableEq

/-- A deserialized entry envelope for a topic. -/
structure TopicDescriptionEntry where
  title : Option String := none
  content : Option TopicEntryContent := none
deriving Repr, DecidableEq

/-- Content of a deserialized `SubscriptionDescriptionEntry` envelope. -/
structure SubscriptionEntryContent where
  subscription_description : InternalSubscriptionDescription
deriving Repr, DecidableEq

/-- A deserialized entry envelope for a subscription. -/
structure SubscriptionDescriptionEntry where
  title : Option String := none
  content : Option SubscriptionEntryContent := none
deriving Repr, DecidableEq

/-- Content of a deserialized `RuleDescriptionEntry` envelope. -/
structure RuleEntryContent where
  rule_description : InternalRuleDescription
deriving Repr, DecidableEq

/-- A deserialized entry envelope for a rule. -/
structure RuleDescriptionEntry where
  title : Option String := none
  content : Option RuleEntryContent := none
deriving Repr, DecidableEq

/-- Content of a deserialized `NamespacePropertiesEntry` envelope. -/
structure NamespaceEntryContent where
  namespace_properties : NamespaceProperties
deriving Repr, DecidableEq

/-- A deserialized entry envelope for namespace properties. -/
structure NamespacePropertiesEntry where
  title : Option String := none
  content : Option NamespaceEntryContent := none
deriving Repr, DecidableEq

/-- The Python runtime values the name-or-object arguments can take:
a domain description object, a plain string, or `None`. -/
inductive PyObject where
  | queueDesc (q : QueueDescription)
  | topicDesc (t : TopicDescription)
  | subscriptionDesc (s : SubscriptionDescription)
  | ruleDesc (r : RuleDescription)
  | str (s : String)
  | pyNone
deriving Repr, DecidableEq

/-- Embedding of `try: name = x.name except AttributeError: name = x`:
description objects expose a (possibly `None`) `name` attribute, a plain
string is used verbatim as the name, and `None` has no `name` attribute and
falls back to itself, i.e. to `None`. -/
def resolve_name : PyObject → Option String
  | .queueDesc q => q.name
  | .topicDesc t => t.name
  | .subscriptionDesc s => s.name
  | .ruleDesc r => r.name
  | .str s => some s
  | .pyNone => none

/-- Python `str(...)` of an optional string, as used by `"".format(...)`. -/
def py_format : Option String → String
  | none => "None"
  | some s => s

/-- Python truthiness of an optional `timedelta`: `None` and
`timedelta(0)` are falsy. -/
def truthy_duration : Duration → Bool := fun d => d != 0

/-- Python truthiness of a `bool`. -/
def truthy_bool : Bool → Bool := fun b => b

/-- Python truthiness of an `int`: `0` is falsy. -/
def truthy_int : Int → Bool := fun n => n != 0

/-- Python truthiness of an optional string name: `None` and `""` are falsy. -/
def truthy_name : Option String → Bool
  | none => false
  | some s => s != ""

/-- Embedding of the Python expression `a or b` on optional values, given
the truthiness test of the payload type: `None` and falsy payloads select
the right operand. -/
def py_or (truthy : α → Bool) (a b : Option α) : Option α :=
  match a with
  | none => b
  | some x => if truthy x then some x else b

/-- The errors the client raises itself: `ResourceNotFoundError` on an empty
envelope, `TypeError` on an update-argument type mismatch, `ValueError` on an
empty delete name, and an uncaught `AttributeError` when a response envelope
unexpectedly lacks content. -/
inductive SBError where
  | resourceNotFound (msg : String)
  | typeErr (msg : String)
  | valueErr (msg : String)
  | attributeErr
deriving Repr, DecidableEq

/-- The request body handed to the generated `put` stubs, before XML
serialization: the kind-specific create-body envelope around the wire
entity. -/
inductive WireBody where
  | queue (d : InternalQueueDescription)
  | topic (d : InternalTopicDescription)
  | subscription (d : InternalSubscriptionDescription)
  | rule (d : InternalRuleDescription)
deriving Repr, DecidableEq

/-- One HTTP request issued through the generated stubs: method, path
segments (entity names), optional precondition header, optional body, and
whether the call was made inside the `_handle_response_error` boundary. -/
structure Request where
  method : String
  path : List String
  if_match : Option String := none
  body : Option WireBody := none
  wrapped : Bool
deriving Repr, DecidableEq

/-- The outcome of one client operation: the returned value or raised
error, together with the HTTP requests issued on the way. -/
structure OpResult (α : Type) where
  result : Except SBError α
  requests : List Request
deriving Repr

/-- Embedding of `ServiceBusManagementClient.get_queue`: fetch (inside the
translation boundary), raise not-found on empty content, else map and force
the name from the call argument. -/
def get_queue (queue_name : String) (entry : QueueDescriptionEntry) :
    OpResult QueueDescription :=
  let req : Request := { method := "GET", path := [queue_name], wrapped := true }
  match entry.content with
  | none =>
    { result := .error (.resourceNotFound
        ("Queue \x27" ++ queue_name ++ "\x27 does not exist"))
      requests := [req] }
  | some c =>
    let queue_description := QueueDescription.from_internal c.queue_description
    { result := .ok { queue_description with name := some queue_name }
      requests := [req] }

/-- Embedding of `get_queue_runtime_info` (its not-found message has no
quotes around the name). -/
def get_queue_runtime_info (queue_name : String) (entry : QueueDescriptionEntry) :
    OpResult QueueRuntimeInfo :=
  let req : Request := { method := "GET", path := [queue_name], wrapped := true }
  match entry.content with
  | none =>
    { result := .error (.resourceNotFound
        ("Queue " ++ queue_name ++ " does not exist"))
      requests := [req] }
  | some c =>
    let runtime_info := QueueRuntimeInfo.from_internal c.queue_description
    { result := .ok { runtime_info with name := some queue_name }
      requests := [req] }

/-- Embedding of `create_queue`: a plain name yields an empty wire
description, a description object is converted; the PUT is inside the
boundary; the response content is mapped and the name forced to the resolved
identifier. -/
def create_queue (queue : Sum String QueueDescription) (entry : QueueDescriptionEntry) :
    OpResult QueueDescription :=
  let pair :=
    match queue with
    | .inl s => (some s, ({} : InternalQueueDescription))
    | .inr q => (q.name, q.to_internal)
  let queue_name := pair.1
  let to_create := pair.2
  let req : Request := { method := "PUT", path := [py_format queue_name],
                         body := some (.queue to_create), wrapped := true }
  match entry.content with
  | none => { result := .error .attributeErr, requests := [req] }
  | some c =>
    let result := QueueDescription.from_internal c.queue_description
    { result := .ok { result with name := queue_name }, requests := [req] }

/-- The keyword overrides accepted by `update_queue`; `none` stands for an
absent keyword (or one explicitly passed as `None`, which `kwargs.get`
cannot distinguish). -/
structure UpdateQueueKwargs where
  default_message_time_to_live : Option Duration := none
  lock_duration : Option Duration := none
  dead_lettering_on_message_expiration : Option Bool := none
  duplicate_detection_history_time_window : Option Duration := none
  max_delivery_count : Option Int := none
deriving Repr, DecidableEq

/-- Embedding of `update_queue`: exact-type check, falsy-coalescing overlay
of the five allow-listed fields (`kwargs.get(f) or current`), overflow clamp
on TTL and auto-delete-on-idle, then a PUT with `if_match="*"` inside the
boundary; the response is discarded. -/
def update_queue (queue_description : PyObject) (kw : UpdateQueueKwargs) :
    OpResult Unit :=
  match queue_description with
  | .queueDesc q =>
    let internal_description := q.to_internal
    let to_update := internal_description
    let to_update := { to_update with
      default_message_time_to_live :=
        py_or truthy_duration kw.default_message_time_to_live
          q.default_message_time_to_live
      lock_duration := py_or truthy_duration kw.lock_duration q.lock_duration
      dead_lettering_on_message_expiration :=
        py_or truthy_bool kw.dead_lettering_on_message_expiration
          q.dead_lettering_on_message_expiration
      duplicate_detection_history_time_window :=
        py_or truthy_duration kw.duplicate_detection_history_time_window
          q.duplicate_detection_history_time_window
      max_delivery_count := py_or truthy_int kw.max_delivery_count q.max_delivery_count }
    let to_update := { to_update with
      default_message_time_to_live :=
        avoid_timedelta_overflow to_update.default_message_time_to_live
      auto_delete_on_idle := avoid_timedelta_overflow to_update.auto_delete_on_idle }
    { result := .ok ()
      requests := [{ method := "PUT", path := [py_format q.name], if_match := some "*",
                     body := some (.queue to_update), wrapped := true }] }
  | _ =>
    { result := .error (.typeErr "queue_description must be of type QueueDescription")
      requests := [] }

/-- Embedding of `delete_queue`: resolve the name-or-object, reject a falsy
name before any request, else DELETE inside the boundary. -/
def delete_queue (queue : PyObject) : OpResult Unit :=
  let queue_name := resolve_name queue
  if truthy_name queue_name then
    { result := .ok ()
      requests := [{ method := "DELETE", path := [py_format queue_name], wrapped := true }] }
  else
    { result := .error (.valueErr "queue_name must not be None or empty")
      requests := [] }

/-- Embedding of the per-entry mapping inside `list_queues`
(`entry_to_qd`): map the nested content and set the name from the entry
title; an entry without content raises (embedded as `none`). -/
def entry_to_qd (entry : QueueDescriptionEntry) : Option QueueDescription :=
  match entry.content with
  | none => none
  | some c =>
    some { QueueDescription.from_internal c.queue_description with name := entry.title }

/-- Embedding of one extracted page of `list_queues`: the page mapping
applied entry-wise to the deserialized feed entries. -/
def list_queues_page (entries : List QueueDescriptionEntry) :
    List (Option QueueDescription) :=
  entries.map entry_to_qd

/-- Embedding of `get_topic`. -/
def get_topic (topic_name : String) (entry : TopicDescriptionEntry) :
    OpResult TopicDescription :=
  let req : Request := { method := "GET", path := [topic_name], wrapped := true }
  match entry.content with
  | none =>
    { result := .error (.resourceNotFound
        ("Topic \x27" ++ topic_name ++ "\x27 does not exist"))
      requests := [req] }
  | some c =>
    let topic_description := TopicDescription.from_internal c.topic_description
    { result := .ok { topic_description with name := some topic_name }
      requests := [req] }

/-- Embedding of `get_topic_runtime_info`. -/
def get_topic_runtime_info (topic_name : String) (entry : TopicDescriptionEntry) :
    OpResult TopicRuntimeInfo :=
  let req : Request := { method := "GET", path := [topic_name], wrapped := true }
  match entry.content with
  | none =>
    { result := .error (.resourceNotFound
        ("Topic " ++ topic_name ++ " does not exist"))
      requests := [req] }
  | some c =>
    let topic_description := TopicRuntimeInfo.from_internal c.topic_description
    { result := .ok { topic_description with name := some topic_name }
      requests := [req] }

/-- Embedding of `create_topic`. -/
def create_topic (topic : Sum String TopicDescription) (entry : TopicDescriptionEntry) :
    OpResult TopicDescription :=
  let pair :=
    match topic with
    | .inl s => (some s, ({} : InternalTopicDescription))
    | .inr t => (t.name, t.to_internal)
  let topic_name := pair.1
  let to_create := pair.2
  let req : Request := { method := "PUT", path := [py_format topic_name],
                         body := some (.topic to_create), wrapped := true }
  match entry.content with
  | none => { result := .error .attributeErr, requests := [req] }
  | some c =>
    let result := TopicDescription.from_internal c.topic_description
    { result := .ok { result with name := topic_name }, requests := [req] }

/-- The keyword overrides accepted by `update_topic`. -/
structure UpdateTopicKwargs where
  default_message_time_to_live : Option Duration := none
  duplicate_detection_history_time_window : Option Duration := none
deriving Repr, DecidableEq

/-- Embedding of `update_topic`: exact-type check, falsy-coalescing overlay
of the two allow-listed fields, overflow clamp on TTL and
auto-delete-on-idle, then a PUT with `if_match="*"` inside the boundary. -/
def update_topic (topic_description : PyObject) (kw : UpdateTopicKwargs) :
    OpResult Unit :=
  match topic_description with
  | .topicDesc t =>
    let internal_description := t.to_internal
    let to_update := internal_description
    let to_update := { to_update with
      default_message_time_to_live :=
        py_or truthy_duration kw.default_message_time_to_live
          t.default_message_time_to_live
      duplicate_detection_history_time_window :=
        py_or truthy_duration kw.duplicate_detection_history_time_window
          t.duplicate_detection_history_time_window }
    let to_update := { to_update with
      default_message_time_to_live :=
        avoid_timedelta_overflow to_update.default_message_time_to_live
      auto_delete_on_idle := avoid_timedelta_overflow to_update.auto_delete_on_idle }
    { result := .ok ()
      requests := [{ method := "PUT", path := [py_format t.name], if_match := some "*",
                     body := some (.topic to_update), wrapped := true }] }
  | _ =>
    { result := .error (.typeErr "topic_description must be of type TopicDescription")
      requests := [] }

/-- Embedding of `delete_topic`: resolve the name-or-object and DELETE; the
source neither validates the name nor enters the translation boundary. -/
def delete_topic (topic : PyObject) : OpResult Unit :=
  let topic_name := resolve_name topic
  { result := .ok ()
    requests := [{ method := "DELETE", path := [py_format topic_name], wrapped := false }] }

/-- Embedding of `get_subscription`: resolve the topic name-or-object, fetch
inside the boundary, raise not-found on empty content (the message formats
the subscription name into the `Topic:` slot and the topic name into the
`Subscription:` slot, as the source does), else map and set the name from
the entry title. -/
def get_subscription (topic : PyObject) (subscription_name : String)
    (entry : SubscriptionDescriptionEntry) : OpResult SubscriptionDescription :=
  let topic_name := resolve_name topic
  let req : Request := { method := "GET", path := [py_format topic_name, subscription_name],
                         wrapped := true }
  match entry.content with
  | none =>
    { result := .error (.resourceNotFound
        ("Subscription(\x27Topic: " ++ subscription_name ++ ", Subscription: " ++
          py_format topic_name ++ "\x27) does not exist"))
      requests := [req] }
  | some c =>
    let subscription := SubscriptionDescription.from_internal c.subscription_description
    { result := .ok { subscription with name := entry.title }
      requests := [req] }

/-- Embedding of `get_subscription_runtime_info`: same shape as
`get_subscription`, returning the runtime-info type with the name set from
the entry title. -/
def get_subscription_runtime_info (topic : PyObject) (subscription_name : String)
    (entry : SubscriptionDescriptionEntry) : OpResult SubscriptionRuntimeInfo :=
  let topic_name := resolve_name topic
  let req : Request := { method := "GET", path := [py_format topic_name, subscription_name],
                         wrapped := true }
  match entry.content with
  | none =>
    { result := .error (.resourceNotFound
        ("Subscription(\x27Topic: " ++ subscription_name ++ ", Subscription: " ++
          py_format topic_name ++ "\x27) does not exist"))
      requests := [req] }
  | some c =>
    let subscription := SubscriptionRuntimeInfo.from_internal c.subscription_description
    { result := .ok { subscription with name := entry.title }
      requests := [req] }

/-- Embedding of `create_subscription`. -/
def create_subscription (topic : PyObject)
    (subscription : Sum String SubscriptionDescription)
    (entry : SubscriptionDescriptionEntry) : OpResult SubscriptionDescription :=
  let topic_name := resolve_name topic
  let pair :=
    match subscription with
    | .inl s => (some s, ({} : InternalSubscriptionDescription))
    | .inr d => (d.name, d.to_internal)
  let subscription_name := pair.1
  let to_create := pair.2
  let req : Request := { method := "PUT",
                         path := [py_format topic_name, py_format subscription_name],
                         body := some (.subscription to_create), wrapped := true }
  match entry.content with
  | none => { result := .error .attributeErr, requests := [req] }
  | some c =>
    let result := SubscriptionDescription.from_internal c.subscription_description
    { result := .ok { result with name := subscription_name }, requests := [req] }

/-- Embedding of `update_subscription`: resolve the topic, exact-type check
on the subscription argument, overflow clamp on TTL and auto-delete-on-idle
(no field allow-list), then a PUT with `if_match="*"` inside the boundary. -/
def update_subscription (topic : PyObject) (subscription_description : PyObject) :
    OpResult Unit :=
  let topic_name := resolve_name topic
  match subscription_description with
  | .subscriptionDesc s =>
    let internal_description := s.to_internal
    let to_update := internal_description
    let to_update := { to_update with
      default_message_time_to_live :=
        avoid_timedelta_overflow to_update.default_message_time_to_live
      auto_delete_on_idle := avoid_timedelta_overflow to_update.auto_delete_on_idle }
    { result := .ok ()
      requests := [{ method := "PUT", path := [py_format topic_name, py_format s.name],
                     if_match := some "*",
                     body := some (.subscription to_update), wrapped := true }] }
  | _ =>
    { result := .error
        (.typeErr "subscription_description must be of type SubscriptionDescription")
      requests := [] }

/-- Embedding of `delete_subscription`: resolve both names and DELETE; the
source neither validates the names nor enters the translation boundary. -/
def delete_subscription (topic : PyObject) (subscription : PyObject) : OpResult Unit :=
  let topic_name := resolve_name topic
  let subscription_name := resolve_name subscription
  { result := .ok ()
    requests := [{ method := "DELETE",
                   path := [py_format topic_name, py_format subscription_name],
                   wrapped := false }] }

/-- Embedding of `get_rule`: resolve topic and subscription, fetch inside
the boundary, raise not-found on empty content (again with the subscription
name in the `Topic:` slot and the topic name in the `Subscription:` slot),
else map the content; no name is forced on the result. -/
def get_rule (topic : PyObject) (subscription : PyObject) (rule_name : String)
    (entry : RuleDescriptionEntry) : OpResult RuleDescription :=
  let topic_name := resolve_name topic
  let subscription_name := resolve_name subscription
  let req : Request := { method := "GET",
                         path := [py_format topic_name, py_format subscription_name, rule_name],
                         wrapped := true }
  match entry.content with
  | none =>
    { result := .error (.resourceNotFound
        ("Rule(\x27Topic: " ++ py_format subscription_name ++ ", Subscription: " ++
          py_format topic_name ++ ", Rule " ++ rule_name ++ "\x27) does not exist"))
      requests := [req] }
  | some c =>
    let rule_description := RuleDescription.from_internal c.rule_description
    { result := .ok rule_description, requests := [req] }

/-- Embedding of `create_rule`: the PUT is inside the boundary, and the
result is the response content taken verbatim (`entry.content.rule_description`),
with no name forced on it. -/
def create_rule (topic : PyObject) (subscription : PyObject)
    (rule : Sum String RuleDescription) (entry : RuleDescriptionEntry) :
    OpResult InternalRuleDescription :=
  let topic_name := resolve_name topic
  let subscription_name := resolve_name subscription
  let pair :=
    match rule with
    | .inl s => (some s, ({} : InternalRuleDescription))
    | .inr r => (r.name, r.to_internal)
  let rule_name := pair.1
  let to_create := pair.2
  let req : Request := { method := "PUT",
                         path := [py_format topic_name, py_format subscription_name,
                                  py_format rule_name],
                         body := some (.rule to_create), wrapped := true }
  match entry.content with
  | none => { result := .error .attributeErr, requests := [req] }
  | some c => { result := .ok c.rule_description, requests := [req] }

/-- Embedding of `update_rule`: exact-type check first, then resolve the
scope names and PUT with `if_match="*"` inside the boundary (no clamps: the
rule model has no duration fields). -/
def update_rule (topic : PyObject) (subscription : PyObject)
    (rule_description : PyObject) : OpResult Unit :=
  match rule_description with
  | .ruleDesc r =>
    let topic_name := resolve_name topic
    let subscription_name := resolve_name subscription
    let internal_description := r.to_internal
    let to_update := internal_description
    { result := .ok ()
      requests := [{ method := "PUT",
                     path := [py_format topic_name, py_format subscription_name,
                              py_format r.name],
                     if_match := some "*",
                     body := some (.rule to_update), wrapped := true }] }
  | _ =>
    { result := .error (.typeErr "rule_description must be of type RuleDescription")
      requests := [] }

/-- Embedding of `delete_rule`: resolve the three names and DELETE; the
source neither validates the names nor enters the translation boundary. -/
def delete_rule (topic : PyObject) (subscription : PyObject) (rule : PyObject) :
    OpResult Unit :=
  let topic_name := resolve_name topic
  let subscription_name := resolve_name subscription
  let rule_name := resolve_name rule
  { result := .ok ()
    requests := [{ method := "DELETE",
                   path := [py_format topic_name, py_format subscription_name,
                            py_format rule_name],
                   wrapped := false }] }

/-- Embedding of `get_namespace_properties`: a single GET issued outside the
translation boundary, deserialized directly to the metadata type. -/
def get_namespace_properties (entry : NamespacePropertiesEntry) :
    OpResult NamespaceProperties :=
  let req : Request := { method := "GET", path := [], wrapped := false }
  match entry.content with
  | none => { result := .error .attributeErr, requests := [req] }
  | some c => { result := .ok c.namespace_properties, requests := [req] }

/-- The returned value of an operation, when it did not raise. -/
def ok_value (r : OpResult α) : Option α :=
  r.result.toOption

/-- The queue wire entity carried by the single request of an operation
that issues exactly one PUT with a queue body. -/
def first_queue_body (r : OpResult α) : Option InternalQueueDescription :=
  match r.requests with
  | [req] =>
    match req.body with
    | some (.queue d) => some d
    | _ => none
  | _ => none

/-- The topic wire entity carried by the single request of an operation. -/
def first_topic_body (r : OpResult α) : Option InternalTopicDescription :=
  match r.requests with
  | [req] =>
    match req.body with
    | some (.topic d) => some d
    | _ => none
  | _ => none

/-- The subscription wire entity carried by the single request of an
operation. -/
def first_subscription_body (r : OpResult α) : Option InternalSubscriptionDescription :=
  match r.requests with
  | [req] =>
    match req.body with
    | some (.subscription d) => some d
    | _ => none
  | _ => none

/-- True when every request an operation issued was made inside the
`_handle_response_error` translation boundary. -/
def all_wrapped (r : OpResult α) : Bool :=
  r.requests.all (fun req => req.wrapped)

/-- The boundary flags of the requests an operation issued, in order. -/
def wrapped_flags (r : OpResult α) : List Bool :=
  r.requests.map (fun req => req.wrapped)

/-- Helper: `String.append` concatenates the underlying character lists. -/
theorem string_data_append (s t : String) : (s ++ t).data = s.data ++ t.data := by
  cases s; cases t; rfl

/-- Helper: exact-type test of `isinstance(x, QueueDescription)`. -/
def is_queue_description : PyObject → Bool
  | .queueDesc _ => true
  | _ => false

/-- Helper: exact-type test of `isinstance(x, TopicDescription)`. -/
def is_topic_description : PyObject → Bool
  | .topicDesc _ => true
  | _ => false

/-- Helper: exact-type test of `isinstance(x, SubscriptionDescription)`. -/
def is_subscription_description : PyObject → Bool
  | .subscriptionDesc _ => true
  | _ => false

/-- Helper: exact-type test of `isinstance(x, RuleDescription)`. -/
def is_rule_description : PyObject → Bool
  | .ruleDesc _ => true
  | _ => false

/-- Helper: a duration field is within the wire-representable range. -/
def duration_le_max : Option Duration → Bool
  | none => true
  | some d => d ≤ MAX_DURATION_VALUE

/-- C1: for each of the four entity kinds, `get_X` on a nonexistent resource
(an entry envelope with empty content) raises a not-found error whose message
contains the requested resource name and, where applicable, the parent scope
names (topic for subscription; topic and subscription for rule). -/
theorem get_entity_not_found_names :
    (∀ (qn : String) (e : QueueDescriptionEntry), e.content = none →
      (get_queue qn e).result =
          .error (.resourceNotFound ("Queue \x27" ++ qn ++ "\x27 does not exist")) ∧
        List.IsInfix qn.data ("Queue \x27" ++ qn ++ "\x27 does not exist").data) ∧
    (∀ (tn : String) (e : TopicDescriptionEntry), e.content = none →
      (get_topic tn e).result =
          .error (.resourceNotFound ("Topic \x27" ++ tn ++ "\x27 does not exist")) ∧
        List.IsInfix tn.data ("Topic \x27" ++ tn ++ "\x27 does not exist").data) ∧
    (∀ (topic : PyObject) (tn sn : String) (e : SubscriptionDescriptionEntry),
      resolve_name topic = some tn → e.content = none →
      (get_subscription topic sn e).result =
          .error (.resourceNotFound ("Subscription(\x27Topic: " ++ sn ++
            ", Subscription: " ++ tn ++ "\x27) does not exist")) ∧
        List.IsInfix sn.data ("Subscription(\x27Topic: " ++ sn ++
          ", Subscription: " ++ tn ++ "\x27) does not exist").data ∧
        List.IsInfix tn.data ("Subscription(\x27Topic: " ++ sn ++
          ", Subscription: " ++ tn ++ "\x27) does not exist").data) ∧
    (∀ (topic subscription : PyObject) (tn sn rn : String) (e : RuleDescriptionEntry),
      resolve_name topic = some tn → resolve_name subscription = some sn →
      e.content = none →
      (get_rule topic subscription rn e).result =
          .error (.resourceNotFound ("Rule(\x27Topic: " ++ sn ++ ", Subscription: " ++
            tn ++ ", Rule " ++ rn ++ "\x27) does not exist")) ∧
        List.IsInfix rn.data ("Rule(\x27Topic: " ++ sn ++ ", Subscription: " ++
          tn ++ ", Rule " ++ rn ++ "\x27) does not exist").data ∧
        List.IsInfix tn.data ("Rule(\x27Topic: " ++ sn ++ ", Subscription: " ++
          tn ++ ", Rule " ++ rn ++ "\x27) does not exist").data ∧
        List.IsInfix sn.data ("Rule(\x27Topic: " ++ sn ++ ", Subscription: " ++
          tn ++ ", Rule " ++ rn ++ "\x27) does not exist").data) := by
  refine ⟨fun qn e h => ⟨by simp [get_queue, h], ?_⟩,
    fun tn e h => ⟨by simp [get_topic, h], ?_⟩,
    fun topic tn sn e ht h => ⟨by simp [get_subscription, ht, h, py_format], ?_, ?_⟩,
    fun topic subscription tn sn rn e ht hs h =>
      ⟨by simp [get_rule, ht, hs, h, py_format], ?_, ?_, ?_⟩⟩
  · exact ⟨"Queue \x27".data, "\x27 does not exist".data,
      by simp [string_data_append]⟩
  · exact ⟨"Topic \x27".data, "\x27 does not exist".data,
      by simp [string_data_append]⟩
  · exact ⟨"Subscription(\x27Topic: ".data,
      (", Subscription: " ++ tn ++ "\x27) does not exist").data,
      by simp [string_data_append]⟩
  · exact ⟨("Subscription(\x27Topic: " ++ sn ++ ", Subscription: ").data,
      "\x27) does not exist".data,
      by simp [string_data_append]⟩
  · exact ⟨("Rule(\x27Topic: " ++ sn ++ ", Subscription: " ++ tn ++ ", Rule ").data,
      "\x27) does not exist".data,
      by simp [string_data_append]⟩
  · exact ⟨("Rule(\x27Topic: " ++ sn ++ ", Subscription: ").data,
      (", Rule " ++ rn ++ "\x27) does not exist").data,
      by simp [string_data_append]⟩
  · exact ⟨"Rule(\x27Topic: ".data,
      (", Subscription: " ++ tn ++ ", Rule " ++ rn ++ "\x27) does not exist").data,
      by simp [string_data_append]⟩

/-- C1 witness: the not-found paths evaluated at concrete inputs. -/
theorem get_entity_not_found_names_witness :
    ((get_queue "q1" { title := none, content := none }).result =
        .error (.resourceNotFound ("Queue \x27" ++ "q1" ++ "\x27 does not exist")) ∧
      List.IsInfix "q1".data ("Queue \x27" ++ "q1" ++ "\x27 does not exist").data) ∧
    ((get_subscription (.str "t1") "s1" { title := none, content := none }).result =
        .error (.resourceNotFound ("Subscription(\x27Topic: " ++ "s1" ++
          ", Subscription: " ++ "t1" ++ "\x27) does not exist")) ∧
      List.IsInfix "s1".data ("Subscription(\x27Topic: " ++ "s1" ++
        ", Subscription: " ++ "t1" ++ "\x27) does not exist").data ∧
      List.IsInfix "t1".data ("Subscription(\x27Topic: " ++ "s1" ++
        ", Subscription: " ++ "t1" ++ "\x27) does not exist").data) ∧
    ((get_rule (.str "t1") (.str "s1") "r1" { title := none, content := none }).result =
        .error (.resourceNotFound ("Rule(\x27Topic: " ++ "s1" ++ ", Subscription: " ++
          "t1" ++ ", Rule " ++ "r1" ++ "\x27) does not exist")) ∧
      List.IsInfix "r1".data ("Rule(\x27Topic: " ++ "s1" ++ ", Subscription: " ++
        "t1" ++ ", Rule " ++ "r1" ++ "\x27) does not exist").data ∧
      List.IsInfix "t1".data ("Rule(\x27Topic: " ++ "s1" ++ ", Subscription: " ++
        "t1" ++ ", Rule " ++ "r1" ++ "\x27) does not exist").data ∧
      List.IsInfix "s1".data ("Rule(\x27Topic: " ++ "s1" ++ ", Subscription: " ++
        "t1" ++ ", Rule " ++ "r1" ++ "\x27) does not exist").data) :=
  ⟨get_entity_not_found_names.1 "q1" { title := none, content := none } rfl,
    get_entity_not_found_names.2.2.1 (.str "t1") "t1" "s1"
      { title := none, content := none } rfl rfl,
    get_entity_not_found_names.2.2.2 (.str "t1") (.str "s1") "t1" "s1" "r1"
      { title := none, content := none } rfl rfl rfl⟩

/-- C2 counterexample: `create_rule` called with only a plain rule name
returns the response content verbatim, so when the server envelope carries
no name the returned object's name is not the requested name. -/
theorem create_rule_name_not_forced :
    (ok_value (create_rule (.str "t1") (.str "s1") (.inl "r1")
        { title := none, content := some { rule_description := { name := none } } })).map
      (fun r => r.name) = some none ∧
    some (none : Option String) ≠ some (some "r1") := by
  constructor
  · rfl
  · decide

/-- C2 amended: `create_queue`, `create_topic` and `create_subscription`
called with only a plain name return a domain object whose name equals that
name, regardless of the server envelope content; `create_rule` instead
returns the envelope content verbatim, its name included. -/
theorem create_entity_name_forced :
    (∀ (n : String) (e : QueueDescriptionEntry) (c : QueueEntryContent),
      e.content = some c →
      (ok_value (create_queue (.inl n) e)).map (fun q => q.name) = some (some n)) ∧
    (∀ (n : String) (e : TopicDescriptionEntry) (c : TopicEntryContent),
      e.content = some c →
      (ok_value (create_topic (.inl n) e)).map (fun t => t.name) = some (some n)) ∧
    (∀ (topic : PyObject) (n : String) (e : SubscriptionDescriptionEntry)
        (c : SubscriptionEntryContent), e.content = some c →
      (ok_value (create_subscription topic (.inl n) e)).map (fun s => s.name) =
        some (some n)) ∧
    (∀ (topic subscription : PyObject) (n : String) (e : RuleDescriptionEntry)
        (c : RuleEntryContent), e.content = some c →
      ok_value (create_rule topic subscription (.inl n) e) = some c.rule_description) := by
  refine ⟨fun n e c h => ?_, fun n e c h => ?_, fun topic n e c h => ?_,
    fun topic subscription n e c h => ?_⟩
  · simp [create_queue, ok_value, h, Except.toOption]
  · simp [create_topic, ok_value, h, Except.toOption]
  · simp [create_subscription, ok_value, h, Except.toOption]
  · simp [create_rule, ok_value, h, Except.toOption]

/-- C2 witness: the create operations evaluated at concrete inputs; the
envelope content carries a different name, and the requested name still wins
for queue, topic and subscription. -/
theorem create_entity_name_forced_witness :
    (ok_value (create_queue (.inl "q1")
        { title := none,
          content := some { queue_description := { name := some "other" } } })).map
      (fun q => q.name) = some (some "q1") ∧
    (ok_value (create_topic (.inl "t1")
        { title := none,
          content := some { topic_description := { name := some "other" } } })).map
      (fun t => t.name) = some (some "t1") ∧
    (ok_value (create_subscription (.str "t1") (.inl "s1")
        { title := none,
          content := some { subscription_description := { name := some "other" } } })).map
      (fun s => s.name) = some (some "s1") :=
  ⟨create_entity_name_forced.1 "q1"
      { title := none, content := some { queue_description := { name := some "other" } } }
      { queue_description := { name := some "other" } } rfl,
    create_entity_name_forced.2.1 "t1"
      { title := none, content := some { topic_description := { name := some "other" } } }
      { topic_description := { name := some "other" } } rfl,
    create_entity_name_forced.2.2.1 (.str "t1") "s1"
      { title := none,
        content := some { subscription_description := { name := some "other" } } }
      { subscription_description := { name := some "other" } } rfl⟩

/-- C9: for every feed entry of a `list_queues` page, the yielded queue
object's name is the entry title (entries without content yield nothing), so
the title wins over any name embedded in the nested content. -/
theorem list_queues_name_is_title (entries : List QueueDescriptionEntry) :
    (list_queues_page entries).map (Option.map (fun q => q.name)) =
      entries.map (fun e => e.content.map (fun _ => e.title)) := by
  induction entries with
  | nil => rfl
  | cons e rest ih =>
    simp only [list_queues_page, List.map_cons] at ih ⊢
    rw [ih]
    cases h : e.content <;> simp [entry_to_qd, h]

/-- C10: `get_subscription` and `get_subscription_runtime_info` set the
returned name from the entry envelope title, while `get_queue` and
`get_topic` set it from the call argument. -/
theorem get_subscription_name_from_title :
    (∀ (topic : PyObject) (sn : String) (e : SubscriptionDescriptionEntry)
        (c : SubscriptionEntryContent), e.content = some c →
      (ok_value (get_subscription topic sn e)).map (fun s => s.name) = some e.title) ∧
    (∀ (topic : PyObject) (sn : String) (e : SubscriptionDescriptionEntry)
        (c : SubscriptionEntryContent), e.content = some c →
      (ok_value (get_subscription_runtime_info topic sn e)).map (fun s => s.name) =
        some e.title) ∧
    (∀ (qn : String) (e : QueueDescriptionEntry) (c : QueueEntryContent),
      e.content = some c →
      (ok_value (get_queue qn e)).map (fun q => q.name) = some (some qn)) ∧
    (∀ (tn : String) (e : TopicDescriptionEntry) (c : TopicEntryContent),
      e.content = some c →
      (ok_value (get_topic tn e)).map (fun t => t.name) = some (some tn)) := by
  refine ⟨fun topic sn e c h => ?_, fun topic sn e c h => ?_,
    fun qn e c h => ?_, fun tn e c h => ?_⟩
  · simp [get_subscription, ok_value, h, Except.toOption]
  · simp [get_subscription_runtime_info, ok_value, h, Except.toOption]
  · simp [get_queue, ok_value, h, Except.toOption]
  · simp [get_topic, ok_value, h, Except.toOption]

/-- C10 witness: with an entry whose title differs from the requested
subscription name, the returned subscription is named after the title. -/
theorem get_subscription_name_from_title_witness :
    (ok_value (get_subscription (.str "t1") "s1"
        { title := some "other",
          content := some { subscription_description := { name := none } } })).map
      (fun s => s.name) = some (some "other") ∧
    (ok_value (get_subscription_runtime_info (.str "t1") "s1"
        { title := some "other",
          content := some { subscription_description := { name := none } } })).map
      (fun s => s.name) = some (some "other") ∧
    (ok_value (get_queue "q1"
        { title := some "other",
          content := some { queue_description := { name := some "zzz" } } })).map
      (fun q => q.name) = some (some "q1") :=
  ⟨get_subscription_name_from_title.1 (.str "t1") "s1"
      { title := some "other",
        content := some { subscription_description := { name := none } } }
      { subscription_description := { name := none } } rfl,
    get_subscription_name_from_title.2.1 (.str "t1") "s1"
      { title := some "other",
        content := some { subscription_description := { name := none } } }
      { subscription_description := { name := none } } rfl,
    get_subscription_name_from_title.2.2.1 "q1"
      { title := some "other",
        content := some { queue_description := { name := some "zzz" } } }
      { queue_description := { name := some "zzz" } } rfl⟩

/-- C5: every `update_X` called with an argument that is not an instance of
the matching domain description type raises a client-side `TypeError` and
issues no HTTP request. -/
theorem update_wrong_type_no_request :
    (∀ (obj : PyObject) (kw : UpdateQueueKwargs), is_queue_description obj = false →
      (update_queue obj kw).result =
          .error (.typeErr "queue_description must be of type QueueDescription") ∧
        (update_queue obj kw).requests = []) ∧
    (∀ (obj : PyObject) (kw : UpdateTopicKwargs), is_topic_description obj = false →
      (update_topic obj kw).result =
          .error (.typeErr "topic_description must be of type TopicDescription") ∧
        (update_topic obj kw).requests = []) ∧
    (∀ (topic obj : PyObject), is_subscription_description obj = false →
      (update_subscription topic obj).result =
          .error (.typeErr "subscription_description must be of type SubscriptionDescription") ∧
        (update_subscription topic obj).requests = []) ∧
    (∀ (topic subscription obj : PyObject), is_rule_description obj = false →
      (update_rule topic subscription obj).result =
          .error (.typeErr "rule_description must be of type RuleDescription") ∧
        (update_rule topic subscription obj).requests = []) := by
  refine ⟨fun obj kw h => ?_, fun obj kw h => ?_, fun topic obj h => ?_,
    fun topic subscription obj h => ?_⟩
  · cases obj <;> simp_all [is_queue_description, update_queue]
  · cases obj <;> simp_all [is_topic_description, update_topic]
  · cases obj <;> simp_all [is_subscription_description, update_subscription]
  · cases obj <;> simp_all [is_rule_description, update_rule]

/-- C5 witness: each update operation rejects a plain string argument with a
`TypeError` and an empty request log. -/
theorem update_wrong_type_no_request_witness :
    ((update_queue (.str "x") {}).result =
        .error (.typeErr "queue_description must be of type QueueDescription") ∧
      (update_queue (.str "x") {}).requests = []) ∧
    ((update_topic (.str "x") {}).result =
        .error (.typeErr "topic_description must be of type TopicDescription") ∧
      (update_topic (.str "x") {}).requests = []) ∧
    ((update_subscription (.str "t") (.str "x")).result =
        .error (.typeErr "subscription_description must be of type SubscriptionDescription") ∧
      (update_subscription (.str "t") (.str "x")).requests = []) ∧
    ((update_rule (.str "t") (.str "s") (.str "x")).result =
        .error (.typeErr "rule_description must be of type RuleDescription") ∧
      (update_rule (.str "t") (.str "s") (.str "x")).requests = []) :=
  ⟨update_wrong_type_no_request.1 (.str "x") {} rfl,
    update_wrong_type_no_request.2.1 (.str "x") {} rfl,
    update_wrong_type_no_request.2.2.1 (.str "t") (.str "x") rfl,
    update_wrong_type_no_request.2.2.2 (.str "t") (.str "s") (.str "x") rfl⟩

/-- C6: `delete_queue` with an empty or missing leaf name (the empty string,
`None`, or an object whose name attribute is empty or `None`) raises a
client-side `ValueError` and issues no HTTP request. -/
theorem delete_queue_empty_name_no_request (queue : PyObject)
    (h : truthy_name (resolve_name queue) = false) :
    (delete_queue queue).result =
        .error (.valueErr "queue_name must not be None or empty") ∧
      (delete_queue queue).requests = [] := by
  simp [delete_queue, h]

/-- C6 witness: the empty string, a queue description without a name, and a
queue description with an empty name are all rejected before any request. -/
theorem delete_queue_empty_name_no_request_witness :
    ((delete_queue (.str "")).result =
        .error (.valueErr "queue_name must not be None or empty") ∧
      (delete_queue (.str "")).requests = []) ∧
    ((delete_queue (.queueDesc { name := none })).result =
        .error (.valueErr "queue_name must not be None or empty") ∧
      (delete_queue (.queueDesc { name := none })).requests = []) ∧
    ((delete_queue (.queueDesc { name := some "" })).result =
        .error (.valueErr "queue_name must not be None or empty") ∧
      (delete_queue (.queueDesc { name := some "" })).requests = []) :=
  ⟨delete_queue_empty_name_no_request (.str "") rfl,
    delete_queue_empty_name_no_request (.queueDesc { name := none }) rfl,
    delete_queue_empty_name_no_request (.queueDesc { name := some "" }) rfl⟩

/-- C7 counterexample: `delete_topic` issues its DELETE outside the
`_handle_response_error` translation boundary, so not every network call of
a public operation is inside it. -/
theorem delete_topic_outside_boundary :
    wrapped_flags (delete_topic (.str "t1")) = [false] ∧
      all_wrapped (delete_topic (.str "t1")) = false := by
  constructor <;> rfl

/-- C7 amended: every network call made by the get, create and update
operations and by `delete_queue` is executed inside the
`_handle_response_error` boundary; `delete_topic`, `delete_subscription`,
`delete_rule` and `get_namespace_properties` issue their single network call
outside it (list page fetches live in a helper module and are not modelled
here). -/
theorem network_calls_boundary :
    (∀ (qn : String) (e : QueueDescriptionEntry), all_wrapped (get_queue qn e) = true) ∧
    (∀ (qn : String) (e : QueueDescriptionEntry),
      all_wrapped (get_queue_runtime_info qn e) = true) ∧
    (∀ (q : Sum String QueueDescription) (e : QueueDescriptionEntry),
      all_wrapped (create_queue q e) = true) ∧
    (∀ (obj : PyObject) (kw : UpdateQueueKwargs), all_wrapped (update_queue obj kw) = true) ∧
    (∀ (obj : PyObject), all_wrapped (delete_queue obj) = true) ∧
    (∀ (tn : String) (e : TopicDescriptionEntry), all_wrapped (get_topic tn e) = true) ∧
    (∀ (tn : String) (e : TopicDescriptionEntry),
      all_wrapped (get_topic_runtime_info tn e) = true) ∧
    (∀ (t : Sum String TopicDescription) (e : TopicDescriptionEntry),
      all_wrapped (create_topic t e) = true) ∧
    (∀ (obj : PyObject) (kw : UpdateTopicKwargs), all_wrapped (update_topic obj kw) = true) ∧
    (∀ (topic : PyObject) (sn : String) (e : SubscriptionDescriptionEntry),
      all_wrapped (get_subscription topic sn e) = true) ∧
    (∀ (topic : PyObject) (sn : String) (e : SubscriptionDescriptionEntry),
      all_wrapped (get_subscription_runtime_info topic sn e) = true) ∧
    (∀ (topic : PyObject) (s : Sum String SubscriptionDescription)
        (e : SubscriptionDescriptionEntry),
      all_wrapped (create_subscription topic s e) = true) ∧
    (∀ (topic obj : PyObject), all_wrapped (update_subscription topic obj) = true) ∧
    (∀ (topic subscription : PyObject) (rn : String) (e : RuleDescriptionEntry),
      all_wrapped (get_rule topic subscription rn e) = true) ∧
    (∀ (topic subscription : PyObject) (r : Sum String RuleDescription)
        (e : RuleDescriptionEntry),
      all_wrapped (create_rule topic subscription r e) = true) ∧
    (∀ (topic subscription obj : PyObject),
      all_wrapped (update_rule topic subscription obj) = true) ∧
    (∀ (topic : PyObject), wrapped_flags (delete_topic topic) = [false]) ∧
    (∀ (topic subscription : PyObject),
      wrapped_flags (delete_subscription topic subscription) = [false]) ∧
    (∀ (topic subscription rule : PyObject),
      wrapped_flags (delete_rule topic subscription rule) = [false]) ∧
    (∀ (e : NamespacePropertiesEntry),
      wrapped_flags (get_namespace_properties e) = [false]) := by
  refine ⟨fun qn e => ?_, fun qn e => ?_, fun q e => ?_, fun obj kw => ?_, fun obj => ?_,
    fun tn e => ?_, fun tn e => ?_, fun t e => ?_, fun obj kw => ?_,
    fun topic sn e => ?_, fun topic sn e => ?_, fun topic s e => ?_, fun topic obj => ?_,
    fun topic subscription rn e => ?_, fun topic subscription r e => ?_,
    fun topic subscription obj => ?_,
    fun topic => ?_, fun topic subscription => ?_, fun topic subscription rule => ?_,
    fun e => ?_⟩
  · cases h : e.content <;> simp [get_queue, all_wrapped, h]
  · cases h : e.content <;> simp [get_queue_runtime_info, all_wrapped, h]
  · cases h : e.content <;> simp [create_queue, all_wrapped, h]
  · cases obj <;> simp [update_queue, all_wrapped]
  · by_cases h : truthy_name (resolve_name obj) = true <;>
      simp_all [delete_queue, all_wrapped]
  · cases h : e.content <;> simp [get_topic, all_wrapped, h]
  · cases h : e.content <;> simp [get_topic_runtime_info, all_wrapped, h]
  · cases h : e.content <;> simp [create_topic, all_wrapped, h]
  · cases obj <;> simp [update_topic, all_wrapped]
  · cases h : e.content <;> simp [get_subscription, all_wrapped, h]
  · cases h : e.content <;> simp [get_subscription_runtime_info, all_wrapped, h]
  · cases h : e.content <;> simp [create_subscription, all_wrapped, h]
  · cases obj <;> simp [update_subscription, all_wrapped]
  · cases h : e.content <;> simp [get_rule, all_wrapped, h]
  · cases h : e.content <;> simp [create_rule, all_wrapped, h]
  · cases obj <;> simp [update_rule, all_wrapped]
  · rfl
  · rfl
  · rfl
  · cases h : e.content <;> simp [get_namespace_properties, wrapped_flags, h]

/-- C8 counterexample: `create_queue` serializes the caller-supplied entity
without passing its duration fields through `avoid_timedelta_overflow`, so
an over-threshold TTL is transmitted unclamped. -/
theorem create_queue_no_clamp :
    (first_queue_body (create_queue
        (.inr { name := some "q1",
                default_message_time_to_live := some (MAX_DURATION_VALUE + 1) })
        { title := none, content := none })).map
      (fun d => d.default_message_time_to_live) =
        some (some (MAX_DURATION_VALUE + 1)) ∧
    avoid_timedelta_overflow (some (MAX_DURATION_VALUE + 1)) =
      some MAX_DURATION_VALUE ∧
    some (some (MAX_DURATION_VALUE + 1)) ≠
      some (avoid_timedelta_overflow (some (MAX_DURATION_VALUE + 1))) := by
  refine ⟨rfl, by decide, by decide⟩

/-- C8 amended: `update_queue`, `update_topic` and `update_subscription`
pass the overflow-prone duration fields (TTL and auto-delete-on-idle)
through the clamp before the body is serialized, so their transmitted bodies
never carry an over-threshold value in those fields; the `create_X`
operations transmit the caller-supplied entity verbatim, without the clamp
(and `update_rule` transmits no duration fields at all). -/
theorem update_clamps_create_does_not :
    (∀ (q : QueueDescription) (kw : UpdateQueueKwargs),
      (first_queue_body (update_queue (.queueDesc q) kw)).all
        (fun d => duration_le_max d.default_message_time_to_live &&
          duration_le_max d.auto_delete_on_idle) = true) ∧
    (∀ (t : TopicDescription) (kw : UpdateTopicKwargs),
      (first_topic_body (update_topic (.topicDesc t) kw)).all
        (fun d => duration_le_max d.default_message_time_to_live &&
          duration_le_max d.auto_delete_on_idle) = true) ∧
    (∀ (topic : PyObject) (s : SubscriptionDescription),
      (first_subscription_body (update_subscription topic (.subscriptionDesc s))).all
        (fun d => duration_le_max d.default_message_time_to_live &&
          duration_le_max d.auto_delete_on_idle) = true) ∧
    (∀ (q : QueueDescription) (e : QueueDescriptionEntry),
      first_queue_body (create_queue (.inr q) e) =
        some (QueueDescription.to_internal q)) ∧
    (∀ (t : TopicDescription) (e : TopicDescriptionEntry),
      first_topic_body (create_topic (.inr t) e) =
        some (TopicDescription.to_internal t)) ∧
    (∀ (topic : PyObject) (s : SubscriptionDescription)
        (e : SubscriptionDescriptionEntry),
      first_subscription_body (create_subscription topic (.inr s) e) =
        some (SubscriptionDescription.to_internal s)) := by
  have clamp_le : ∀ d : Option Duration,
      duration_le_max (avoid_timedelta_overflow d) = true := by
    intro d
    cases d <;> simp [avoid_timedelta_overflow, duration_le_max, min_le_right]
  refine ⟨fun q kw => ?_, fun t kw => ?_, fun topic s => ?_,
    fun q e => ?_, fun t e => ?_, fun topic s e => ?_⟩
  · simp [update_queue, first_queue_body, clamp_le]
  · simp [update_topic, first_topic_body, clamp_le]
  · simp [update_subscription, first_subscription_body, clamp_le]
  · cases h : e.content <;> simp [create_queue, first_queue_body, h]
  · cases h : e.content <;> simp [create_topic, first_topic_body, h]
  · cases h : e.content <;> simp [create_subscription, first_subscription_body, h]

/-- An entry whose fetched TTL exceeds the overflow threshold, used to
exhibit the clamp applied by the update overlay. -/
def overflow_ttl_entry : QueueDescriptionEntry :=
  { title := none,
    content := some { queue_description :=
      { default_message_time_to_live := some (MAX_DURATION_VALUE + 1) } } }

/-- C3 counterexample: a queue fetched with an over-threshold TTL and
updated with no overrides produces a wire body whose TTL is the clamped
value, not the originally fetched value. -/
theorem update_queue_roundtrip_clamps_ttl :
    ((ok_value (get_queue "q1" overflow_ttl_entry)).bind (fun q =>
        (first_queue_body (update_queue (.queueDesc q) {})).map
          (fun d => d.default_message_time_to_live))) =
      some (some MAX_DURATION_VALUE) ∧
    overflow_ttl_entry.content.map
        (fun c => c.queue_description.default_message_time_to_live) =
      some (some (MAX_DURATION_VALUE + 1)) ∧
    (some (some MAX_DURATION_VALUE) : Option (Option Duration)) ≠
      some (some (MAX_DURATION_VALUE + 1)) := by
  refine ⟨by decide, by decide, by decide⟩

/-- C3 amended: an object obtained from `get_queue` (resp. `get_topic`) and
passed to `update_queue` (resp. `update_topic`) with no overrides produces a
wire body whose allow-listed fields equal the originally fetched values,
except that the TTL additionally passes through the overflow clamp (so it
equals the fetched value exactly when that value does not exceed the
threshold). -/
theorem update_roundtrip_preserves_fields :
    (∀ (qn : String) (e : QueueDescriptionEntry) (c : QueueEntryContent)
        (q : QueueDescription), e.content = some c →
      ok_value (get_queue qn e) = some q →
      (first_queue_body (update_queue (.queueDesc q) {})).map
          (fun d => d.lock_duration) = some c.queue_description.lock_duration ∧
      (first_queue_body (update_queue (.queueDesc q) {})).map
          (fun d => d.dead_lettering_on_message_expiration) =
        some c.queue_description.dead_lettering_on_message_expiration ∧
      (first_queue_body (update_queue (.queueDesc q) {})).map
          (fun d => d.duplicate_detection_history_time_window) =
        some c.queue_description.duplicate_detection_history_time_window ∧
      (first_queue_body (update_queue (.queueDesc q) {})).map
          (fun d => d.max_delivery_count) =
        some c.queue_description.max_delivery_count ∧
      (first_queue_body (update_queue (.queueDesc q) {})).map
          (fun d => d.default_message_time_to_live) =
        some (avoid_timedelta_overflow
          c.queue_description.default_message_time_to_live)) ∧
    (∀ (tn : String) (e : TopicDescriptionEntry) (c : TopicEntryContent)
        (t : TopicDescription), e.content = some c →
      ok_value (get_topic tn e) = some t →
      (first_topic_body (update_topic (.topicDesc t) {})).map
          (fun d => d.duplicate_detection_history_time_window) =
        some c.topic_description.duplicate_detection_history_time_window ∧
      (first_topic_body (update_topic (.topicDesc t) {})).map
          (fun d => d.default_message_time_to_live) =
        some (avoid_timedelta_overflow
          c.topic_description.default_message_time_to_live)) := by
  constructor
  · intro qn e c q h h2
    simp only [ok_value, get_queue, h, Except.toOption, Option.some.injEq] at h2
    subst h2
    refine ⟨?_, ?_, ?_, ?_, ?_⟩ <;>
      simp [update_queue, first_queue_body, QueueDescription.to_internal,
        QueueDescription.from_internal, py_or]
  · intro tn e c t h h2
    simp only [ok_value, get_topic, h, Except.toOption, Option.some.injEq] at h2
    subst h2
    refine ⟨?_, ?_⟩ <;>
      simp [update_topic, first_topic_body, TopicDescription.to_internal,
        TopicDescription.from_internal, py_or]

/-- C3 witness: a fetched queue and topic with in-range fields pass through
the no-override update with every allow-listed field preserved. -/
theorem update_roundtrip_preserves_fields_witness :
    ((first_queue_body (update_queue (.queueDesc
          { name := some "q1", default_message_time_to_live := some 60,
            lock_duration := some 30, dead_lettering_on_message_expiration := some true,
            duplicate_detection_history_time_window := some 20,
            max_delivery_count := some 10, auto_delete_on_idle := some 300 }) {})).map
        (fun d => d.lock_duration) = some (some 30) ∧
      (first_queue_body (update_queue (.queueDesc
          { name := some "q1", default_message_time_to_live := some 60,
            lock_duration := some 30, dead_lettering_on_message_expiration := some true,
            duplicate_detection_history_time_window := some 20,
            max_delivery_count := some 10, auto_delete_on_idle := some 300 }) {})).map
        (fun d => d.dead_lettering_on_message_expiration) = some (some true) ∧
      (first_queue_body (update_queue (.queueDesc
          { name := some "q1", default_message_time_to_live := some 60,
            lock_duration := some 30, dead_lettering_on_message_expiration := some true,
            duplicate_detection_history_time_window := some 20,
            max_delivery_count := some 10, auto_delete_on_idle := some 300 }) {})).map
        (fun d => d.duplicate_detection_history_time_window) = some (some 20) ∧
      (first_queue_body (update_queue (.queueDesc
          { name := some "q1", default_message_time_to_live := some 60,
            lock_duration := some 30, dead_lettering_on_message_expiration := some true,
            duplicate_detection_history_time_window := some 20,
            max_delivery_count := some 10, auto_delete_on_idle := some 300 }) {})).map
        (fun d => d.max_delivery_count) = some (some 10) ∧
      (first_queue_body (update_queue (.queueDesc
          { name := some "q1", default_message_time_to_live := some 60,
            lock_duration := some 30, dead_lettering_on_message_expiration := some true,
            duplicate_detection_history_time_window := some 20,
            max_delivery_count := some 10, auto_delete_on_idle := some 300 }) {})).map
        (fun d => d.default_message_time_to_live) =
          some (avoid_timedelta_overflow (some 60))) ∧
    ((first_topic_body (update_topic (.topicDesc
          { name := some "t1", default_message_time_to_live := some 60,
            duplicate_detection_history_time_window := some 20,
            auto_delete_on_idle := some 300 }) {})).map
        (fun d => d.duplicate_detection_history_time_window) = some (some 20) ∧
      (first_topic_body (update_topic (.topicDesc
          { name := some "t1", default_message_time_to_live := some 60,
            duplicate_detection_history_time_window := some 20,
            auto_delete_on_idle := some 300 }) {})).map
        (fun d => d.default_message_time_to_live) =
          some (avoid_timedelta_overflow (some 60))) :=
  ⟨update_roundtrip_preserves_fields.1 "q1"
      { title := none,
        content := some { queue_description :=
          { default_message_time_to_live := some 60, lock_duration := some 30,
            dead_lettering_on_message_expiration := some true,
            duplicate_detection_history_time_window := some 20,
            max_delivery_count := some 10, auto_delete_on_idle := some 300 } } }
      { queue_description :=
        { default_message_time_to_live := some 60, lock_duration := some 30,
          dead_lettering_on_message_expiration := some true,
          duplicate_detection_history_time_window := some 20,
          max_delivery_count := some 10, auto_delete_on_idle := some 300 } }
      { name := some "q1", default_message_time_to_live := some 60,
        lock_duration := some 30, dead_lettering_on_message_expiration := some true,
        duplicate_detection_history_time_window := some 20,
        max_delivery_count := some 10, auto_delete_on_idle := some 300 } rfl rfl,
    update_roundtrip_preserves_fields.2 "t1"
      { title := none,
        content := some { topic_description :=
          { default_message_time_to_live := some 60,
            duplicate_detection_history_time_window := some 20,
            auto_delete_on_idle := some 300 } } }
      { topic_description :=
        { default_message_time_to_live := some 60,
          duplicate_detection_history_time_window := some 20,
          auto_delete_on_idle := some 300 } }
      { name := some "t1", default_message_time_to_live := some 60,
        duplicate_detection_history_time_window := some 20,
        auto_delete_on_idle := some 300 } rfl rfl⟩

/-- C4 counterexample: the overlay is falsy-coalescing, so an explicit falsy
override is ignored (an explicit `False` dead-lettering override is replaced
by the current `True`), and a truthy TTL override above the threshold is
clamped rather than placed verbatim. -/
theorem update_queue_falsy_override_ignored :
    (first_queue_body (update_queue (.queueDesc
        { name := some "q1", dead_lettering_on_message_expiration := some true,
          default_message_time_to_live := some 0 })
        { dead_lettering_on_message_expiration := some false,
          default_message_time_to_live := some (MAX_DURATION_VALUE + 1) })).map
      (fun d => d.dead_lettering_on_message_expiration) = some (some true) ∧
    (some (some true) : Option (Option Bool)) ≠ some (some false) ∧
    (first_queue_body (update_queue (.queueDesc
        { name := some "q1", dead_lettering_on_message_expiration := some true,
          default_message_time_to_live := some 0 })
        { dead_lettering_on_message_expiration := some false,
          default_message_time_to_live := some (MAX_DURATION_VALUE + 1) })).map
      (fun d => d.default_message_time_to_live) = some (some MAX_DURATION_VALUE) ∧
    (some (some MAX_DURATION_VALUE) : Option (Option Duration)) ≠
      some (some (MAX_DURATION_VALUE + 1)) := by
  refine ⟨by decide, by decide, by decide, by decide⟩

/-- C4 amended: in `update_queue` and `update_topic`, an explicit keyword
override is placed in the wire body only when it is truthy (non-`None`,
non-zero, non-`False`), with the TTL override additionally passed through
the overflow clamp; when the override is absent or falsy, the object's own
current field value is used (the TTL again clamped). -/
theorem update_override_precedence :
    (∀ (q : QueueDescription) (kw : UpdateQueueKwargs),
      (∀ d : Duration, kw.lock_duration = some d → truthy_duration d = true →
        (first_queue_body (update_queue (.queueDesc q) kw)).map
          (fun x => x.lock_duration) = some (some d)) ∧
      (kw.lock_duration = none ∨ kw.lock_duration = some 0 →
        (first_queue_body (update_queue (.queueDesc q) kw)).map
          (fun x => x.lock_duration) = some q.lock_duration) ∧
      (∀ b : Bool, kw.dead_lettering_on_message_expiration = some b →
        truthy_bool b = true →
        (first_queue_body (update_queue (.queueDesc q) kw)).map
          (fun x => x.dead_lettering_on_message_expiration) = some (some b)) ∧
      (kw.dead_lettering_on_message_expiration = none ∨
          kw.dead_lettering_on_message_expiration = some false →
        (first_queue_body (update_queue (.queueDesc q) kw)).map
          (fun x => x.dead_lettering_on_message_expiration) =
            some q.dead_lettering_on_message_expiration) ∧
      (∀ d : Duration, kw.duplicate_detection_history_time_window = some d →
        truthy_duration d = true →
        (first_queue_body (update_queue (.queueDesc q) kw)).map
          (fun x => x.duplicate_detection_history_time_window) = some (some d)) ∧
      (kw.duplicate_detection_history_time_window = none ∨
          kw.duplicate_detection_history_time_window = some 0 →
        (first_queue_body (update_queue (.queueDesc q) kw)).map
          (fun x => x.duplicate_detection_history_time_window) =
            some q.duplicate_detection_history_time_window) ∧
      (∀ n : Int, kw.max_delivery_count = some n → truthy_int n = true →
        (first_queue_body (update_queue (.queueDesc q) kw)).map
          (fun x => x.max_delivery_count) = some (some n)) ∧
      (kw.max_delivery_count = none ∨ kw.max_delivery_count = some 0 →
        (first_queue_body (update_queue (.queueDesc q) kw)).map
          (fun x => x.max_delivery_count) = some q.max_delivery_count) ∧
      (∀ d : Duration, kw.default_message_time_to_live = some d →
        truthy_duration d = true →
        (first_queue_body (update_queue (.queueDesc q) kw)).map
          (fun x => x.default_message_time_to_live) =
            some (avoid_timedelta_overflow (some d))) ∧
      (kw.default_message_time_to_live = none ∨
          kw.default_message_time_to_live = some 0 →
        (first_queue_body (update_queue (.queueDesc q) kw)).map
          (fun x => x.default_message_time_to_live) =
            some (avoid_timedelta_overflow q.default_message_time_to_live))) ∧
    (∀ (t : TopicDescription) (kw : UpdateTopicKwargs),
      (∀ d : Duration, kw.duplicate_detection_history_time_window = some d →
        truthy_duration d = true →
        (first_topic_body (update_topic (.topicDesc t) kw)).map
          (fun x => x.duplicate_detection_history_time_window) = some (some d)) ∧
      (kw.duplicate_detection_history_time_window = none ∨
          kw.duplicate_detection_history_time_window = some 0 →
        (first_topic_body (update_topic (.topicDesc t) kw)).map
          (fun x => x.duplicate_detection_history_time_window) =
            some t.duplicate_detection_history_time_window) ∧
      (∀ d : Duration, kw.default_message_time_to_live = some d →
        truthy_duration d = true →
        (first_topic_body (update_topic (.topicDesc t) kw)).map
          (fun x => x.default_message_time_to_live) =
            some (avoid_timedelta_overflow (some d))) ∧
      (kw.default_message_time_to_live = none ∨
          kw.default_message_time_to_live = some 0 →
        (first_topic_body (update_topic (.topicDesc t) kw)).map
          (fun x => x.default_message_time_to_live) =
            some (avoid_timedelta_overflow t.default_message_time_to_live))) := by
  constructor
  · intro q kw
    refine ⟨fun d hd ht => ?_, fun hf => ?_, fun b hb ht => ?_, fun hf => ?_,
      fun d hd ht => ?_, fun hf => ?_, fun n hn ht => ?_, fun hf => ?_,
      fun d hd ht => ?_, fun hf => ?_⟩
    · simp_all [update_queue, first_queue_body, QueueDescription.to_internal, py_or]
    · rcases hf with hf | hf <;>
        simp_all [update_queue, first_queue_body, QueueDescription.to_internal,
          py_or, truthy_duration]
    · simp_all [update_queue, first_queue_body, QueueDescription.to_internal, py_or]
    · rcases hf with hf | hf <;>
        simp_all [update_queue, first_queue_body, QueueDescription.to_internal,
          py_or, truthy_bool]
    · simp_all [update_queue, first_queue_body, QueueDescription.to_internal, py_or]
    · rcases hf with hf | hf <;>
        simp_all [update_queue, first_queue_body, QueueDescription.to_internal,
          py_or, truthy_duration]
    · simp_all [update_queue, first_queue_body, QueueDescription.to_internal, py_or]
    · rcases hf with hf | hf <;>
        simp_all [update_queue, first_queue_body, QueueDescription.to_internal,
          py_or, truthy_int]
    · simp_all [update_queue, first_queue_body, QueueDescription.to_internal, py_or]
    · rcases hf with hf | hf <;>
        simp_all [update_queue, first_queue_body, QueueDescription.to_internal,
          py_or, truthy_duration]
  · intro t kw
    refine ⟨fun d hd ht => ?_, fun hf => ?_, fun d hd ht => ?_, fun hf => ?_⟩
    · simp_all [update_topic, first_topic_body, TopicDescription.to_internal, py_or]
    · rcases hf with hf | hf <;>
        simp_all [update_topic, first_topic_body, TopicDescription.to_internal,
          py_or, truthy_duration]
    · simp_all [update_topic, first_topic_body, TopicDescription.to_internal, py_or]
    · rcases hf with hf | hf <;>
        simp_all [update_topic, first_topic_body, TopicDescription.to_internal,
          py_or, truthy_duration]

/-- C4 witness: a truthy lock-duration override is placed in the body, and
the absent TTL override falls back to the object's clamped current value. -/
theorem update_override_precedence_witness :
    (first_queue_body (update_queue (.queueDesc
        { name := some "q1", default_message_time_to_live := some 60,
          lock_duration := some 30 })
        { lock_duration := some 99 })).map (fun x => x.lock_duration) =
      some (some 99) ∧
    (first_queue_body (update_queue (.queueDesc
        { name := some "q1", default_message_time_to_live := some 60,
          lock_duration := some 30 })
        { lock_duration := some 99 })).map (fun x => x.default_message_time_to_live) =
      some (avoid_timedelta_overflow (some 60)) :=
  ⟨(update_override_precedence.1
      { name := some "q1", default_message_time_to_live := some 60,
        lock_duration := some 30 }
      { lock_duration := some 99 }).1 99 rfl rfl,
    (update_override_precedence.1
      { name := some "q1", default_message_time_to_live := some 60,
        lock_duration := some 30 }
      { lock_duration := some 99 }).2.2.2.2.2.2.2.2.2 (Or.inl rfl)⟩
